import Mathlib

/-!
# Verification of src/terraform/nat-recovery-lambda.py

A shallow embedding of the NAT-instance recovery Lambda. The Python
handler is a pure function of the inbound event, the environment
variables, and the outcomes of its external AWS calls; we model the
latter as an explicit `World` record fixing the response of each
external call, and we record every side effect (EC2 probe/start/reboot
calls and SNS alerts) in an `Effects` trace. Python exceptions are
modelled with `Except PyErr`; each `try/except` block in the source
becomes a wrapper function matching on the `Except` value of its body.
-/

deriving instance DecidableEq for Except

namespace NatRecovery

/-- A Python exception value, tagged by the kinds arising in this program:
`ValueError` (raised by the handler's config check), `IndexError`
(raised by `[0]` indexing on an empty list), and a client/API error from
a boto3 call. `msg` is `str(e)`. -/
inductive PyErr where
  | valueError (m : String)
  | indexError (m : String)
  | clientError (m : String)
deriving DecidableEq, Repr

/-- `str(e)` for a modelled Python exception. -/
def PyErr.msg : PyErr → String
  | .valueError m => m
  | .indexError m => m
  | .clientError m => m

/-- `json.dumps` applied to a plain string (as the source does for most
response bodies); the strings dumped by this program contain no
characters needing escapes. -/
def jsonDumps (s : String) : String := "\"" ++ s ++ "\""

/-- `detail.newState` of a CloudWatch alarm event: `value` and `reason`
are looked up with `.get`, so each may be absent. -/
structure NewState where
  value : Option String := none
  reason : Option String := none
deriving DecidableEq, Repr

/-- The `detail` map of an inbound event. Fields are read with
`detail.get(...)`, so every field may be absent (`none`). These are the
only keys the program reads. -/
structure Detail where
  instanceId : Option String := none
  state : Option String := none
  alarmName : Option String := none
  newState : Option NewState := none
deriving DecidableEq, Repr

/-- The inbound event envelope: `event.get('source')`,
`event.get('detail-type')`, `event.get('detail', {})`. -/
structure Event where
  source : Option String := none
  detailType : Option String := none
  detail : Detail := {}
deriving DecidableEq, Repr

/-- The three environment variables read by the handler, each possibly
unset (`os.environ.get` returns `None` when absent). -/
structure Env where
  instanceId : Option String := none
  routeTableId : Option String := none
  snsTopicArn : Option String := none
deriving DecidableEq, Repr

/-- Python truthiness of an environment-variable value: `None` and the
empty string are falsy; `all([a, b, c])` in the source tests exactly
this on each value. -/
def truthy : Option String → Bool
  | none => false
  | some s => s ≠ ""

/-- An instance record in a `describe_instances` reservation; the
program reads only `['State']['Name']`. -/
structure Ec2Instance where
  stateName : String
deriving DecidableEq, Repr

/-- A reservation in a `describe_instances` response; the program reads
only `['Instances']`. -/
structure Reservation where
  instances : List Ec2Instance
deriving DecidableEq, Repr

/-- One entry of `describe_instance_status`'s `InstanceStatuses`; the
program reads `['InstanceStatus']['Status']` and
`['SystemStatus']['Status']`. -/
structure InstanceStatusEntry where
  instanceStatus : String
  systemStatus : String
deriving DecidableEq, Repr

/-- The outcome of every external call the program can make during one
invocation. `Except.error m` means the boto3 call raises a client error
with message `m`. `snsPublish.ok mid` is a delivered message id. -/
structure World where
  describeInstances : Except String (List Reservation)
  startInstances : Except String Unit
  describeInstanceStatus : Except String (List InstanceStatusEntry)
  rebootInstances : Except String Unit
  snsPublish : Except String String
deriving DecidableEq, Repr

/-- One `send_alert` invocation: the topic ARN it was given (possibly
`None` on the top-level error path), the `Subject`, and the dynamic
values interpolated into the message body, in order of appearance.
(The body also interpolates `datetime.utcnow()`, which we do not
model.) -/
structure Alert where
  topic : Option String
  subject : String
  mentions : List String
deriving DecidableEq, Repr

/-- The side-effect trace of one invocation: how many times each EC2
API was called, and the list of `send_alert` invocations in order. -/
structure Effects where
  describeInstancesCalls : Nat := 0
  describeStatusCalls : Nat := 0
  startCalls : Nat := 0
  rebootCalls : Nat := 0
  alerts : List Alert := []
deriving DecidableEq, Repr

/-- The handler's return value `{'statusCode': ..., 'body': ...}`. -/
structure LambdaResult where
  statusCode : Nat
  body : String
deriving DecidableEq, Repr

/-- Python `xs[0]`: the head, or an `IndexError` on an empty list. -/
def pyIndex0 {α : Type} (xs : List α) : Except PyErr α :=
  match xs with
  | [] => .error (.indexError "list index out of range")
  | x :: _ => .ok x

/-- `pat` is a prefix of `s` (on character lists). -/
def charsPrefixOf : List Char → List Char → Bool
  | [], _ => true
  | _ :: _, [] => false
  | a :: as, b :: bs => a == b && charsPrefixOf as bs

/-- `pat` occurs somewhere in `s` (on character lists). -/
def charsInfixOf (pat : List Char) : List Char → Bool
  | [] => charsPrefixOf pat []
  | b :: bs => charsPrefixOf pat (b :: bs) || charsInfixOf pat bs

/-- Python `pat in s` for strings (substring containment; the empty
pattern is contained in every string). -/
def strContains (s pat : String) : Bool :=
  charsInfixOf pat.toList s.toList

/-- Python `s.lower()` (character-wise lowering; the strings compared
in this program are ASCII). -/
def strToLower (s : String) : String := ⟨s.toList.map Char.toLower⟩

/-- `ec2.describe_instances(InstanceIds=[instance_id])`: records the
probe call and yields the world's response (or client error). -/
def ec2_describe_instances (w : World) (eff : Effects) :
    Except PyErr (List Reservation) × Effects :=
  let eff := { eff with describeInstancesCalls := eff.describeInstancesCalls + 1 }
  match w.describeInstances with
  | .ok r => (.ok r, eff)
  | .error m => (.error (.clientError m), eff)

/-- `ec2.start_instances(InstanceIds=[instance_id])`. -/
def ec2_start_instances (w : World) (eff : Effects) :
    Except PyErr Unit × Effects :=
  let eff := { eff with startCalls := eff.startCalls + 1 }
  match w.startInstances with
  | .ok _ => (.ok (), eff)
  | .error m => (.error (.clientError m), eff)

/-- `ec2.describe_instance_status(InstanceIds=[instance_id])`. -/
def ec2_describe_instance_status (w : World) (eff : Effects) :
    Except PyErr (List InstanceStatusEntry) × Effects :=
  let eff := { eff with describeStatusCalls := eff.describeStatusCalls + 1 }
  match w.describeInstanceStatus with
  | .ok r => (.ok r, eff)
  | .error m => (.error (.clientError m), eff)

/-- `ec2.reboot_instances(InstanceIds=[instance_id])`. -/
def ec2_reboot_instances (w : World) (eff : Effects) :
    Except PyErr Unit × Effects :=
  let eff := { eff with rebootCalls := eff.rebootCalls + 1 }
  match w.rebootInstances with
  | .ok _ => (.ok (), eff)
  | .error m => (.error (.clientError m), eff)

/-- `send_alert(sns_topic_arn, subject, message)` (source lines
264-276): attempts `sns.publish` inside a `try`, logging on success;
`except Exception` logs and returns, so the call never raises. The
alert attempt is recorded in the trace either way. A `None` topic makes
the publish call itself fail (parameter validation), which is likewise
swallowed. -/
def send_alert (w : World) (topic : Option String) (subject : String)
    (mentions : List String) (eff : Effects) : Except PyErr Unit × Effects :=
  let eff := { eff with alerts := eff.alerts ++ [⟨topic, subject, mentions⟩] }
  match topic with
  | none => (.ok (), eff)
  | some _ =>
    match w.snsPublish with
    | .ok _ => (.ok (), eff)
    | .error _ => (.ok (), eff)

/-- Body of the `try` in `handle_stopped_instance` (source lines
98-134): probe live state via `describe_instances`, index into
`['Reservations'][0]['Instances'][0]`, and if the live state is
`'stopped'` start the instance and send the success notice, otherwise
return a 400 state-conflict result. -/
def handle_stopped_instance_try (instance_id sns_topic_arn : String)
    (w : World) : Except PyErr LambdaResult × Effects :=
  match ec2_describe_instances w {} with
  | (.error e, eff) => (.error e, eff)
  | (.ok reservations, eff) =>
    match pyIndex0 reservations with
    | .error e => (.error e, eff)
    | .ok r0 =>
      match pyIndex0 r0.instances with
      | .error e => (.error e, eff)
      | .ok inst0 =>
        let current_state := inst0.stateName
        if current_state = "stopped" then
          match ec2_start_instances w eff with
          | (.error e, eff) => (.error e, eff)
          | (.ok _, eff) =>
            let (_, eff) := send_alert w (some sns_topic_arn)
              "NAT Instance Automatically Restarted" [instance_id] eff
            (.ok ⟨200, jsonDumps ("Successfully started instance " ++ instance_id)⟩, eff)
        else
          (.ok ⟨400, jsonDumps ("Instance in " ++ current_state ++ " state")⟩, eff)

/-- `handle_stopped_instance` (source lines 94-140): the `try` body,
with `except Exception` sending the "NAT Recovery Failed" escalation
and re-raising. -/
def handle_stopped_instance (instance_id sns_topic_arn : String)
    (w : World) : Except PyErr LambdaResult × Effects :=
  match handle_stopped_instance_try instance_id sns_topic_arn w with
  | (.ok r, eff) => (.ok r, eff)
  | (.error e, eff) =>
    let (_, eff) := send_alert w (some sns_topic_arn) "NAT Recovery Failed"
      [instance_id, e.msg] eff
    (.error e, eff)

/-- `handle_terminated_instance` (source lines 142-169): sends the
critical escalation and returns 200. -/
def handle_terminated_instance (instance_id sns_topic_arn : String)
    (w : World) : Except PyErr LambdaResult × Effects :=
  let (_, eff) := send_alert w (some sns_topic_arn)
    "CRITICAL: NAT Instance Terminated" [instance_id] ({} : Effects)
  (.ok ⟨200, jsonDumps "Critical alert sent for terminated instance"⟩, eff)

/-- Body of the `try` in `handle_health_check_failure` (source lines
211-256): probe `describe_instance_status`; empty `InstanceStatuses`
yields 404; both statuses `'ok'` yields 200 with no action; otherwise
reboot and send the recovery notice naming the alarm and reason. -/
def handle_health_check_failure_try (instance_id alarm_name reason sns_topic_arn : String)
    (w : World) : Except PyErr LambdaResult × Effects :=
  match ec2_describe_instance_status w {} with
  | (.error e, eff) => (.error e, eff)
  | (.ok statuses, eff) =>
    match statuses with
    | [] => (.ok ⟨404, "Instance status not found"⟩, eff)
    | st :: _ =>
      let instance_status := st.instanceStatus
      let system_status := st.systemStatus
      if instance_status ≠ "ok" ∨ system_status ≠ "ok" then
        match ec2_reboot_instances w eff with
        | (.error e, eff) => (.error e, eff)
        | (.ok _, eff) =>
          let (_, eff) := send_alert w (some sns_topic_arn)
            "NAT Instance Automatically Rebooted" [instance_id, alarm_name, reason] eff
          (.ok ⟨200, jsonDumps ("Successfully rebooted instance " ++ instance_id)⟩, eff)
      else
        (.ok ⟨200, jsonDumps "Status checks OK, no action needed"⟩, eff)

/-- `handle_health_check_failure` (source lines 207-262): the `try`
body, with `except Exception` sending the "NAT Recovery Failed"
escalation and re-raising. -/
def handle_health_check_failure (instance_id alarm_name reason sns_topic_arn : String)
    (w : World) : Except PyErr LambdaResult × Effects :=
  match handle_health_check_failure_try instance_id alarm_name reason sns_topic_arn w with
  | (.ok r, eff) => (.ok r, eff)
  | (.error e, eff) =>
    let (_, eff) := send_alert w (some sns_topic_arn) "NAT Recovery Failed"
      [instance_id, e.msg] eff
    (.error e, eff)

/-- `handle_cloudwatch_alarm` (source lines 171-205): reads
`alarmName`/`newState` with defaults; when the state value is `ALARM`,
a name containing `health` or `status` (case-insensitively) takes the
health-check recovery path, any other name sends the informational
alert; every non-health path falls through to the shared 200
"Processed alarm" result. -/
def handle_cloudwatch_alarm (event : Event) (instance_id sns_topic_arn : String)
    (w : World) : Except PyErr LambdaResult × Effects :=
  let detail := event.detail
  let alarm_name := detail.alarmName.getD "Unknown"
  let new_state := detail.newState.getD {}
  let state_value := new_state.value.getD "Unknown"
  let state_reason := new_state.reason.getD "No reason provided"
  if state_value = "ALARM" then
    if strContains (strToLower alarm_name) "health" || strContains (strToLower alarm_name) "status" then
      handle_health_check_failure instance_id alarm_name state_reason sns_topic_arn w
    else
      let (_, eff) := send_alert w (some sns_topic_arn)
        ("NAT Instance Alert: " ++ alarm_name)
        [alarm_name, state_value, state_reason, instance_id] ({} : Effects)
      (.ok ⟨200, jsonDumps ("Processed alarm: " ++ alarm_name)⟩, eff)
  else
    (.ok ⟨200, jsonDumps ("Processed alarm: " ++ alarm_name)⟩, ({} : Effects))

/-- `handle_instance_state_change` (source lines 71-92): filter on the
event's `instance-id`, then dispatch on the reported `state`. -/
def handle_instance_state_change (event : Event) (instance_id sns_topic_arn : String)
    (w : World) : Except PyErr LambdaResult × Effects :=
  let detail := event.detail
  let event_instance_id := detail.instanceId
  let state := detail.state
  if event_instance_id ≠ some instance_id then
    (.ok ⟨200, "Not our instance"⟩, ({} : Effects))
  else if state = some "stopped" ∨ state = some "stopping" then
    handle_stopped_instance instance_id sns_topic_arn w
  else if state = some "terminated" ∨ state = some "terminating" then
    handle_terminated_instance instance_id sns_topic_arn w
  else
    (.ok ⟨200, "No action needed"⟩, ({} : Effects))

/-- Body of the `try` in `handler` (source lines 36-61): read the three
environment variables, raise `ValueError` unless all are truthy, then
dispatch on the event envelope's `source`/`detail-type`. -/
def handler_try (env : Env) (event : Event) (w : World) :
    Except PyErr LambdaResult × Effects :=
  if truthy env.instanceId && truthy env.routeTableId && truthy env.snsTopicArn then
    let instance_id := env.instanceId.getD ""
    let sns_topic_arn := env.snsTopicArn.getD ""
    if event.source = some "aws.ec2" ∧
        event.detailType = some "EC2 Instance State-change Notification" then
      handle_instance_state_change event instance_id sns_topic_arn w
    else if event.source = some "aws.cloudwatch" then
      handle_cloudwatch_alarm event instance_id sns_topic_arn w
    else
      (.ok ⟨200, jsonDumps "Event type not handled"⟩, ({} : Effects))
  else
    (.error (.valueError "Missing required environment variables"), ({} : Effects))

/-- `handler` (source lines 32-69): the `try` body, with the top-level
`except Exception` sending the generic "NAT Recovery Error" escalation
(to the possibly-`None` `sns_topic_arn` local) and returning a 500
result instead of propagating. -/
def handler (env : Env) (event : Event) (w : World) : LambdaResult × Effects :=
  match handler_try env event w with
  | (.ok r, eff) => (r, eff)
  | (.error e, eff) =>
    let (_, eff) := send_alert w env.snsTopicArn "NAT Recovery Error"
      ["Error in recovery function: " ++ e.msg] eff
    (⟨500, jsonDumps ("Error: " ++ e.msg)⟩, eff)

/-! ## Fixtures and basic lemmas -/

/-- An environment with all three variables set. -/
def goodEnv (iid rtb sns : String) : Env := ⟨some iid, some rtb, some sns⟩

/-- An EC2 instance state-change event for instance `eid` reporting
state `st`. -/
def stateChangeEvent (eid st : String) : Event :=
  { source := some "aws.ec2"
  , detailType := some "EC2 Instance State-change Notification"
  , detail := { instanceId := some eid, state := some st } }

/-- A CloudWatch alarm event with the given name, state value and
reason. -/
def alarmEvent (name value reason : String) : Event :=
  { source := some "aws.cloudwatch"
  , detailType := some "CloudWatch Alarm State Change"
  , detail := { alarmName := some name, newState := some ⟨some value, some reason⟩ } }

/-- A world in which every external call succeeds, the live lifecycle
state is `stopped`, and both health statuses are `ok`. -/
def wOk : World :=
  { describeInstances := .ok [⟨[⟨"stopped"⟩]⟩]
  , startInstances := .ok ()
  , describeInstanceStatus := .ok [⟨"ok", "ok"⟩]
  , rebootInstances := .ok ()
  , snsPublish := .ok "mid-1" }

/-- `send_alert` returns normally whatever the publish outcome or topic
is, appending exactly one alert record to the trace. -/
theorem send_alert_eq (w : World) (topic : Option String) (subject : String)
    (mentions : List String) (eff : Effects) :
    send_alert w topic subject mentions eff =
      (.ok (), { eff with alerts := eff.alerts ++ [⟨topic, subject, mentions⟩] }) := by
  unfold send_alert
  cases topic with
  | none => rfl
  | some t => cases h : w.snsPublish <;> simp [h]

/-! ## Claim theorems -/

/-- C1: For an instance state-change event for the configured target
instance with reported state "stopped" or "stopping", the handler
re-probes the live lifecycle state with one describe call; if the live
state equals "stopped" (the start call succeeding) it issues exactly
one start call and exactly one success notification and returns status
200, and for every other live state it issues zero start calls and
returns status 400. -/
theorem claim1_stopped_event (iid rtb sns st live : String)
    (hiid : iid ≠ "") (hrtb : rtb ≠ "") (hsns : sns ≠ "")
    (hst : st = "stopped" ∨ st = "stopping")
    (insts : List Ec2Instance) (resv : List Reservation) (w : World)
    (hdesc : w.describeInstances = .ok (⟨⟨live⟩ :: insts⟩ :: resv)) :
    (live = "stopped" → w.startInstances = .ok () →
      handler (goodEnv iid rtb sns) (stateChangeEvent iid st) w =
        (⟨200, jsonDumps ("Successfully started instance " ++ iid)⟩,
         { describeInstancesCalls := 1, startCalls := 1
         , alerts := [⟨some sns, "NAT Instance Automatically Restarted", [iid]⟩] }))
    ∧ (live ≠ "stopped" →
      handler (goodEnv iid rtb sns) (stateChangeEvent iid st) w =
        (⟨400, jsonDumps ("Instance in " ++ live ++ " state")⟩,
         { describeInstancesCalls := 1 })) := by
  constructor
  · rintro rfl hstart
    rcases hst with rfl | rfl <;>
      simp [handler, handler_try, goodEnv, stateChangeEvent, truthy, hiid, hrtb, hsns,
        handle_instance_state_change, handle_stopped_instance,
        handle_stopped_instance_try, ec2_describe_instances, hdesc, pyIndex0,
        ec2_start_instances, hstart, send_alert_eq]
  · intro hlive
    rcases hst with rfl | rfl <;>
      simp [handler, handler_try, goodEnv, stateChangeEvent, truthy, hiid, hrtb, hsns,
        handle_instance_state_change, handle_stopped_instance,
        handle_stopped_instance_try, ec2_describe_instances, hdesc, pyIndex0,
        hlive, send_alert_eq]

/-- Witness for C1 at a concrete stopped event and a world whose live
state is "stopped". -/
theorem claim1_stopped_event_witness :
    handler (goodEnv "i-a" "rtb" "arn") (stateChangeEvent "i-a" "stopped") wOk =
      (⟨200, jsonDumps ("Successfully started instance " ++ "i-a")⟩,
       { describeInstancesCalls := 1, startCalls := 1
       , alerts := [⟨some "arn", "NAT Instance Automatically Restarted", ["i-a"]⟩] }) :=
  (claim1_stopped_event "i-a" "rtb" "arn" "stopped" "stopped"
    (by decide) (by decide) (by decide) (Or.inl rfl) [] [] wOk rfl).1 rfl rfl

/-- C6: For an instance state-change event for the configured target
instance with reported state "terminated" or "terminating", zero start
and reboot calls occur, exactly one critical escalation notification is
sent, and the result is status 200. -/
theorem claim6_terminated_event (iid rtb sns st : String)
    (hiid : iid ≠ "") (hrtb : rtb ≠ "") (hsns : sns ≠ "")
    (hst : st = "terminated" ∨ st = "terminating") (w : World) :
    handler (goodEnv iid rtb sns) (stateChangeEvent iid st) w =
      (⟨200, jsonDumps "Critical alert sent for terminated instance"⟩,
       { alerts := [⟨some sns, "CRITICAL: NAT Instance Terminated", [iid]⟩] }) := by
  rcases hst with rfl | rfl <;>
    simp [handler, handler_try, goodEnv, stateChangeEvent, truthy, hiid, hrtb, hsns,
      handle_instance_state_change, handle_terminated_instance, send_alert_eq]

/-- Witness for C6 at a concrete terminated event. -/
theorem claim6_terminated_event_witness :
    handler (goodEnv "i-a" "rtb" "arn") (stateChangeEvent "i-a" "terminated") wOk =
      (⟨200, jsonDumps "Critical alert sent for terminated instance"⟩,
       { alerts := [⟨some "arn", "CRITICAL: NAT Instance Terminated", ["i-a"]⟩] }) :=
  claim6_terminated_event "i-a" "rtb" "arn" "terminated"
    (by decide) (by decide) (by decide) (Or.inl rfl) wOk

/-- C7: For every instance state-change event whose `instance-id` does
not equal the configured target instance id (including a missing id),
the result is status 200 "Not our instance" and the effect trace is
empty: no probe, no start/reboot call, no notification. -/
theorem claim7_other_instance (iid rtb sns : String)
    (hiid : iid ≠ "") (hrtb : rtb ≠ "") (hsns : sns ≠ "")
    (d : Detail) (hd : d.instanceId ≠ some iid) (w : World) :
    handler (goodEnv iid rtb sns)
        ⟨some "aws.ec2", some "EC2 Instance State-change Notification", d⟩ w =
      (⟨200, "Not our instance"⟩, {}) := by
  simp [handler, handler_try, goodEnv, truthy, hiid, hrtb, hsns,
    handle_instance_state_change, hd]

/-- Witness for C7 at a concrete event for a different instance. -/
theorem claim7_other_instance_witness :
    handler (goodEnv "i-a" "rtb" "arn")
        ⟨some "aws.ec2", some "EC2 Instance State-change Notification",
         { instanceId := some "i-zzz", state := some "stopped" }⟩ wOk =
      (⟨200, "Not our instance"⟩, {}) :=
  claim7_other_instance "i-a" "rtb" "arn" (by decide) (by decide) (by decide)
    { instanceId := some "i-zzz", state := some "stopped" } (by decide) wOk

/-- C2: On the health-check recovery path for the configured target
instance (an ALARM alarm event whose name matches health/status): if
the status probe returns no results the handler returns 404 with no
reboot and no notification; if both statuses are healthy it issues
zero reboot calls and returns 200; if either is unhealthy (the reboot
call succeeding) it issues exactly one reboot call, sends exactly one
recovery notification naming the triggering alarm and reason, and
returns 200. -/
theorem claim2_health_check_recovery (iid rtb sns name reason : String)
    (hiid : iid ≠ "") (hrtb : rtb ≠ "") (hsns : sns ≠ "")
    (hname : (strContains (strToLower name) "health" || strContains (strToLower name) "status") = true)
    (w : World) :
    (w.describeInstanceStatus = .ok [] →
      handler (goodEnv iid rtb sns) (alarmEvent name "ALARM" reason) w =
        (⟨404, "Instance status not found"⟩, { describeStatusCalls := 1 }))
    ∧ (∀ rest, w.describeInstanceStatus = .ok (⟨"ok", "ok"⟩ :: rest) →
      handler (goodEnv iid rtb sns) (alarmEvent name "ALARM" reason) w =
        (⟨200, jsonDumps "Status checks OK, no action needed"⟩,
         { describeStatusCalls := 1 }))
    ∧ (∀ ist sst rest, w.describeInstanceStatus = .ok (⟨ist, sst⟩ :: rest) →
      (ist ≠ "ok" ∨ sst ≠ "ok") → w.rebootInstances = .ok () →
      handler (goodEnv iid rtb sns) (alarmEvent name "ALARM" reason) w =
        (⟨200, jsonDumps ("Successfully rebooted instance " ++ iid)⟩,
         { describeStatusCalls := 1, rebootCalls := 1
         , alerts := [⟨some sns, "NAT Instance Automatically Rebooted",
            [iid, name, reason]⟩] })) := by
  refine ⟨fun hds => ?_, fun rest hds => ?_, fun ist sst rest hds hbad hreboot => ?_⟩ <;>
    simp [handler, handler_try, goodEnv, alarmEvent, truthy, hiid, hrtb, hsns,
      handle_cloudwatch_alarm, hname, handle_health_check_failure,
      handle_health_check_failure_try, ec2_describe_instance_status, hds,
      ec2_reboot_instances, send_alert_eq]
  rw [if_pos (show ¬ist = "ok" ∨ ¬sst = "ok" from hbad)]
  simp [hreboot, send_alert_eq]

/-- Witness for C2 at a concrete health alarm with an unhealthy system
status. -/
theorem claim2_health_check_recovery_witness :
    handler (goodEnv "i-a" "rtb" "arn") (alarmEvent "nat-health-check" "ALARM" "failing")
        { wOk with describeInstanceStatus := .ok [⟨"ok", "impaired"⟩] } =
      (⟨200, jsonDumps ("Successfully rebooted instance " ++ "i-a")⟩,
       { describeStatusCalls := 1, rebootCalls := 1
       , alerts := [⟨some "arn", "NAT Instance Automatically Rebooted",
          ["i-a", "nat-health-check", "failing"]⟩] }) :=
  (claim2_health_check_recovery "i-a" "rtb" "arn" "nat-health-check" "failing"
    (by decide) (by decide) (by decide) (by decide)
    { wOk with describeInstanceStatus := .ok [⟨"ok", "impaired"⟩] }).2.2
    "ok" "impaired" [] rfl (Or.inr (by decide)) rfl

/-- C3: For every monitoring-source (alarm) event: a state value other
than "ALARM" produces status 200 with an empty effect trace; state
"ALARM" with a name containing "health" or "status" case-insensitively
dispatches to the health-check recovery path; state "ALARM" with a
non-matching name sends exactly one informational notification
reporting the alarm name, state, and reason, with no corrective action,
and returns status 200. -/
theorem claim3_alarm_routing (iid rtb sns : String)
    (hiid : iid ≠ "") (hrtb : rtb ≠ "") (hsns : sns ≠ "")
    (dt : Option String) (d : Detail) (w : World) :
    ((d.newState.getD {}).value.getD "Unknown" ≠ "ALARM" →
      handler (goodEnv iid rtb sns) ⟨some "aws.cloudwatch", dt, d⟩ w =
        (⟨200, jsonDumps ("Processed alarm: " ++ d.alarmName.getD "Unknown")⟩, {}))
    ∧ ((d.newState.getD {}).value.getD "Unknown" = "ALARM" →
       (strContains (strToLower (d.alarmName.getD "Unknown")) "health" ||
        strContains (strToLower (d.alarmName.getD "Unknown")) "status") = true →
      handler_try (goodEnv iid rtb sns) ⟨some "aws.cloudwatch", dt, d⟩ w =
        handle_health_check_failure iid (d.alarmName.getD "Unknown")
          ((d.newState.getD {}).reason.getD "No reason provided") sns w)
    ∧ ((d.newState.getD {}).value.getD "Unknown" = "ALARM" →
       (strContains (strToLower (d.alarmName.getD "Unknown")) "health" ||
        strContains (strToLower (d.alarmName.getD "Unknown")) "status") = false →
      handler (goodEnv iid rtb sns) ⟨some "aws.cloudwatch", dt, d⟩ w =
        (⟨200, jsonDumps ("Processed alarm: " ++ d.alarmName.getD "Unknown")⟩,
         { alerts := [⟨some sns, "NAT Instance Alert: " ++ d.alarmName.getD "Unknown",
            [d.alarmName.getD "Unknown", "ALARM",
             (d.newState.getD {}).reason.getD "No reason provided", iid]⟩] })) := by
  refine ⟨fun hv => ?_, fun hv hm => ?_, fun hv hm => ?_⟩
  · simp [handler, handler_try, goodEnv, truthy, hiid, hrtb, hsns,
      handle_cloudwatch_alarm, hv, send_alert_eq]
  · simp [handler, handler_try, goodEnv, truthy, hiid, hrtb, hsns,
      handle_cloudwatch_alarm, hv, hm, send_alert_eq]
  · simp [handler, handler_try, goodEnv, truthy, hiid, hrtb, hsns,
      handle_cloudwatch_alarm, hv, hm, send_alert_eq]

/-- Witness for C3 at a concrete non-matching ALARM event. -/
theorem claim3_alarm_routing_witness :
    handler (goodEnv "i-a" "rtb" "arn")
        ⟨some "aws.cloudwatch", some "CloudWatch Alarm State Change",
         { alarmName := some "CPUHigh", newState := some ⟨some "ALARM", some "cpu hot"⟩ }⟩ wOk =
      (⟨200, jsonDumps ("Processed alarm: " ++ "CPUHigh")⟩,
       { alerts := [⟨some "arn", "NAT Instance Alert: " ++ "CPUHigh",
          ["CPUHigh", "ALARM", "cpu hot", "i-a"]⟩] }) :=
  (claim3_alarm_routing "i-a" "rtb" "arn" (by decide) (by decide) (by decide)
    (some "CloudWatch Alarm State Change")
    { alarmName := some "CPUHigh", newState := some ⟨some "ALARM", some "cpu hot"⟩ }
    wOk).2.2 rfl (by decide)

/-- C4: For every inbound event, if any of the three required
configuration values is missing or empty, the invocation returns
status 500 with exactly one escalation notification and zero probe and
zero start/reboot calls. -/
theorem claim4_missing_config (env : Env) (event : Event) (w : World)
    (h : truthy env.instanceId = false ∨ truthy env.routeTableId = false ∨
         truthy env.snsTopicArn = false) :
    handler env event w =
      (⟨500, jsonDumps ("Error: " ++ "Missing required environment variables")⟩,
       { alerts := [⟨env.snsTopicArn, "NAT Recovery Error",
          ["Error in recovery function: " ++ "Missing required environment variables"]⟩] }) := by
  rcases h with h | h | h <;>
    simp [handler, handler_try, h, send_alert_eq, PyErr.msg]

/-- Witness for C4 with the route-table variable unset. -/
theorem claim4_missing_config_witness :
    handler ⟨some "i-a", none, some "arn"⟩ (stateChangeEvent "i-a" "stopped") wOk =
      (⟨500, jsonDumps ("Error: " ++ "Missing required environment variables")⟩,
       { alerts := [⟨some "arn", "NAT Recovery Error",
          ["Error in recovery function: " ++ "Missing required environment variables"]⟩] }) :=
  claim4_missing_config ⟨some "i-a", none, some "arn"⟩ (stateChangeEvent "i-a" "stopped") wOk
    (Or.inr (Or.inl rfl))

/-- C5: When an external start or reboot call fails, the inner handler
sends a "NAT Recovery Failed" escalation naming the failure and
re-raises; the top-level entry point catches it, sends a second generic
"NAT Recovery Error" escalation, and returns status 500 normally — so
exactly two notification attempts occur for that failure and the
exception is not propagated past `handler`. -/
theorem claim5_action_failure_double_alert (iid rtb sns emsg : String)
    (hiid : iid ≠ "") (hrtb : rtb ≠ "") (hsns : sns ≠ "") :
    (∀ (st : String), st = "stopped" ∨ st = "stopping" →
     ∀ (insts : List Ec2Instance) (resv : List Reservation) (w : World),
      w.describeInstances = .ok (⟨⟨"stopped"⟩ :: insts⟩ :: resv) →
      w.startInstances = .error emsg →
      handler (goodEnv iid rtb sns) (stateChangeEvent iid st) w =
        (⟨500, jsonDumps ("Error: " ++ emsg)⟩,
         { describeInstancesCalls := 1, startCalls := 1
         , alerts := [⟨some sns, "NAT Recovery Failed", [iid, emsg]⟩,
                      ⟨some sns, "NAT Recovery Error",
                       ["Error in recovery function: " ++ emsg]⟩] }))
    ∧ (∀ (name reason ist sst : String) (rest : List InstanceStatusEntry) (w : World),
      (strContains (strToLower name) "health" || strContains (strToLower name) "status") = true →
      w.describeInstanceStatus = .ok (⟨ist, sst⟩ :: rest) →
      (ist ≠ "ok" ∨ sst ≠ "ok") →
      w.rebootInstances = .error emsg →
      handler (goodEnv iid rtb sns) (alarmEvent name "ALARM" reason) w =
        (⟨500, jsonDumps ("Error: " ++ emsg)⟩,
         { describeStatusCalls := 1, rebootCalls := 1
         , alerts := [⟨some sns, "NAT Recovery Failed", [iid, emsg]⟩,
                      ⟨some sns, "NAT Recovery Error",
                       ["Error in recovery function: " ++ emsg]⟩] })) := by
  constructor
  · rintro st (rfl | rfl) insts resv w hdesc hstart <;>
      simp [handler, handler_try, goodEnv, stateChangeEvent, truthy, hiid, hrtb, hsns,
        handle_instance_state_change, handle_stopped_instance,
        handle_stopped_instance_try, ec2_describe_instances, hdesc, pyIndex0,
        ec2_start_instances, hstart, send_alert_eq, PyErr.msg]
  · intro name reason ist sst rest w hname hds hbad hreboot
    simp [handler, handler_try, goodEnv, alarmEvent, truthy, hiid, hrtb, hsns,
      handle_cloudwatch_alarm, hname, handle_health_check_failure,
      handle_health_check_failure_try, ec2_describe_instance_status, hds,
      send_alert_eq]
    rw [if_pos (show ¬ist = "ok" ∨ ¬sst = "ok" from hbad)]
    simp [ec2_reboot_instances, hreboot, send_alert_eq, PyErr.msg]

/-- Witness for C5 with a failing start call on the stopped path. -/
theorem claim5_action_failure_double_alert_witness :
    handler (goodEnv "i-a" "rtb" "arn") (stateChangeEvent "i-a" "stopped")
        { wOk with startInstances := .error "boom" } =
      (⟨500, jsonDumps ("Error: " ++ "boom")⟩,
       { describeInstancesCalls := 1, startCalls := 1
       , alerts := [⟨some "arn", "NAT Recovery Failed", ["i-a", "boom"]⟩,
                    ⟨some "arn", "NAT Recovery Error",
                     ["Error in recovery function: " ++ "boom"]⟩] }) :=
  (claim5_action_failure_double_alert "i-a" "rtb" "arn" "boom"
    (by decide) (by decide) (by decide)).1 "stopped" (Or.inl rfl) [] []
    { wOk with startInstances := .error "boom" } rfl rfl

/-- The invocation output never depends on the outcome of the
notification-delivery call: replacing `snsPublish` leaves `handler`'s
result and effect trace unchanged. -/
theorem handler_publish_irrel (env : Env) (event : Event) (w : World)
    (p q : Except String String) :
    handler env event { w with snsPublish := p } =
      handler env event { w with snsPublish := q } := by
  cases w with
  | mk di si ds ri sp =>
    simp only [handler, handler_try, handle_instance_state_change,
      handle_cloudwatch_alarm, handle_stopped_instance, handle_stopped_instance_try,
      handle_terminated_instance, handle_health_check_failure,
      handle_health_check_failure_try, ec2_describe_instances, ec2_start_instances,
      ec2_describe_instance_status, ec2_reboot_instances, send_alert_eq]

/-- C8: The notifier send operation never raises to its caller, and the
invocation's returned result (status code and body) is identical in the
two runs that differ only in whether the notification-delivery calls
succeed or fail. -/
theorem claim8_notifier_isolation :
    (∀ (w : World) (topic : Option String) (subject : String)
       (mentions : List String) (eff : Effects),
      (send_alert w topic subject mentions eff).1 = .ok ())
    ∧ (∀ (env : Env) (event : Event) (w : World) (mid emsg : String),
      (handler env event { w with snsPublish := .ok mid }).1 =
        (handler env event { w with snsPublish := .error emsg }).1) := by
  constructor
  · intro w topic subject mentions eff
    rw [send_alert_eq]
  · intro env event w mid emsg
    exact congrArg Prod.fst (handler_publish_irrel env event w (.ok mid) (.error emsg))

/-- Counterexample to C9 as frozen: an alarm event that omits only the
`reason` field, with state value "ALARM" and a name containing
"health", is in the claim's scope yet does not return status 200 — the
handler takes the health-check path with the defaulted reason and
returns 404 when the status probe yields no results. -/
theorem claim9_alarm_missing_fields_counterexample :
    handler (goodEnv "i-a" "rtb" "arn")
        ⟨some "aws.cloudwatch", some "CloudWatch Alarm State Change",
         { alarmName := some "nat-health-check", newState := some ⟨some "ALARM", none⟩ }⟩
        { wOk with describeInstanceStatus := .ok [] } =
      (⟨404, "Instance status not found"⟩, { describeStatusCalls := 1 }) := by
  decide

/-- C9 (amended): For every monitoring-source event whose detail omits
alarmName, newState, or the state value/reason fields, the alarm
handler substitutes defaults ("Unknown" for the name and state value,
"No reason provided" for the reason); when the possibly-defaulted state
value is not "ALARM" — in particular whenever newState or its value is
missing — it returns status 200 without raising, with no probe, no
corrective action, and no notification; when the state value is
"ALARM" and the possibly-defaulted name does not match health/status,
it sends exactly one informational notification carrying the defaulted
fields and returns status 200 without raising; when the state value is
"ALARM" and the name matches, the health-check recovery path is taken
with the defaulted reason (its own result standing). -/
theorem claim9_alarm_missing_fields (iid rtb sns : String)
    (hiid : iid ≠ "") (hrtb : rtb ≠ "") (hsns : sns ≠ "")
    (dt : Option String) :
    (∀ (d : Detail) (w : World),
      (d.newState.getD {}).value.getD "Unknown" ≠ "ALARM" →
      handler (goodEnv iid rtb sns) ⟨some "aws.cloudwatch", dt, d⟩ w =
        (⟨200, jsonDumps ("Processed alarm: " ++ d.alarmName.getD "Unknown")⟩, {}))
    ∧ (∀ (reasonOpt : Option String) (w : World),
      handler (goodEnv iid rtb sns)
          ⟨some "aws.cloudwatch", dt,
           { alarmName := none, newState := some ⟨some "ALARM", reasonOpt⟩ }⟩ w =
        (⟨200, jsonDumps ("Processed alarm: " ++ "Unknown")⟩,
         { alerts := [⟨some sns, "NAT Instance Alert: " ++ "Unknown",
            ["Unknown", "ALARM", reasonOpt.getD "No reason provided", iid]⟩] }))
    ∧ (∀ (name : String) (w : World),
      (strContains (strToLower name) "health" || strContains (strToLower name) "status") = false →
      handler (goodEnv iid rtb sns)
          ⟨some "aws.cloudwatch", dt,
           { alarmName := some name, newState := some ⟨some "ALARM", none⟩ }⟩ w =
        (⟨200, jsonDumps ("Processed alarm: " ++ name)⟩,
         { alerts := [⟨some sns, "NAT Instance Alert: " ++ name,
            [name, "ALARM", "No reason provided", iid]⟩] }))
    ∧ (∀ (name : String) (w : World),
      (strContains (strToLower name) "health" || strContains (strToLower name) "status") = true →
      handler_try (goodEnv iid rtb sns)
          ⟨some "aws.cloudwatch", dt,
           { alarmName := some name, newState := some ⟨some "ALARM", none⟩ }⟩ w =
        handle_health_check_failure iid name "No reason provided" sns w) := by
  have hsub : (strContains (strToLower "Unknown") "health" ||
      strContains (strToLower "Unknown") "status") = false := by decide
  refine ⟨fun d w hv => ?_, fun reasonOpt w => ?_,
          fun name w hm => ?_, fun name w hm => ?_⟩
  · simp [handler, handler_try, goodEnv, truthy, hiid, hrtb, hsns,
      handle_cloudwatch_alarm, hv, send_alert_eq]
  · simp [handler, handler_try, goodEnv, truthy, hiid, hrtb, hsns,
      handle_cloudwatch_alarm, hsub, send_alert_eq]
  · simp [handler, handler_try, goodEnv, truthy, hiid, hrtb, hsns,
      handle_cloudwatch_alarm, hm, send_alert_eq]
  · simp [handler, handler_try, goodEnv, truthy, hiid, hrtb, hsns,
      handle_cloudwatch_alarm, hm, send_alert_eq]

/-- Witness for the amended C9: a reason-omitting ALARM event with a
health-matching name dispatches to the health path with the defaulted
reason. -/
theorem claim9_alarm_missing_fields_witness :
    handler_try (goodEnv "i-a" "rtb" "arn")
        ⟨some "aws.cloudwatch", some "CloudWatch Alarm State Change",
         { alarmName := some "nat-health-check", newState := some ⟨some "ALARM", none⟩ }⟩ wOk =
      handle_health_check_failure "i-a" "nat-health-check" "No reason provided" "arn" wOk :=
  (claim9_alarm_missing_fields "i-a" "rtb" "arn"
    (by decide) (by decide) (by decide)
    (some "CloudWatch Alarm State Change")).2.2.2 "nat-health-check" wOk (by decide)

/-- C10: On the stopped-instance path, a lifecycle probe response with
no reservations or no instances raises an `IndexError` rather than
yielding a 404: `handle_stopped_instance` sends the failure escalation
and re-raises, and the whole invocation returns status 500 with the
second, generic escalation. -/
theorem claim10_stopped_path_unknown (iid rtb sns st : String)
    (hiid : iid ≠ "") (hrtb : rtb ≠ "") (hsns : sns ≠ "")
    (hst : st = "stopped" ∨ st = "stopping") (w : World)
    (hdesc : w.describeInstances = .ok [] ∨
             ∃ resv, w.describeInstances = .ok (⟨[]⟩ :: resv)) :
    handle_stopped_instance iid sns w =
      (.error (.indexError "list index out of range"),
       { describeInstancesCalls := 1
       , alerts := [⟨some sns, "NAT Recovery Failed", [iid, "list index out of range"]⟩] })
    ∧ handler (goodEnv iid rtb sns) (stateChangeEvent iid st) w =
      (⟨500, jsonDumps ("Error: " ++ "list index out of range")⟩,
       { describeInstancesCalls := 1
       , alerts := [⟨some sns, "NAT Recovery Failed", [iid, "list index out of range"]⟩,
                    ⟨some sns, "NAT Recovery Error",
                     ["Error in recovery function: " ++ "list index out of range"]⟩] }) := by
  rcases hdesc with hdesc | ⟨resv, hdesc⟩ <;> rcases hst with rfl | rfl <;>
    refine ⟨?_, ?_⟩ <;>
    simp [handler, handler_try, goodEnv, stateChangeEvent, truthy, hiid, hrtb, hsns,
      handle_instance_state_change, handle_stopped_instance,
      handle_stopped_instance_try, ec2_describe_instances, hdesc, pyIndex0,
      send_alert_eq, PyErr.msg]

/-- Witness for C10 with an empty reservations list. -/
theorem claim10_stopped_path_unknown_witness :
    handle_stopped_instance "i-a" "arn" { wOk with describeInstances := .ok [] } =
      (.error (.indexError "list index out of range"),
       { describeInstancesCalls := 1
       , alerts := [⟨some "arn", "NAT Recovery Failed",
          ["i-a", "list index out of range"]⟩] }) :=
  (claim10_stopped_path_unknown "i-a" "rtb" "arn" "stopped"
    (by decide) (by decide) (by decide) (Or.inl rfl)
    { wOk with describeInstances := .ok [] } (Or.inl rfl)).1

end NatRecovery
